import Mathlib

/-
Verification of the batch favicon generator in
src/argus_core/execution/generate_favicons.py.

The script is a straight-line Python function: it validates the source
path, ensures the target directory exists, loops over a static table of
(filename, width, height) tuples invoking the external tool sips once per
entry, performs one special-cased non-square tile resize, and finally
produces favicon.ico via an attempted ICO conversion with a copy fallback.

The shallow embedding below models:
  - the filesystem as a record of existing directories and an association
    list from paths to file contents;
  - each subprocess invocation as a `Cmd` value carrying exactly the
    arguments the Python code passes, with an external-behaviour oracle
    `b : Cmd → Bool` deciding which invocations exit with status 0
    (subprocess.run(..., check=True) raises CalledProcessError exactly
    when the tool exits non-zero);
  - the external tool's contract: `sips -z h w src --out dst` writes `dst`
    as an image of height h and width w; `sips -s format ico src --out dst`
    writes an ICO re-encoding of `src` to `dst`; `cp src dst` copies the
    bytes of `src` to `dst` verbatim;
  - a run's observable result as `Outcome`: `Outcome.ok` for the Python
    function returning None, `Outcome.raised` for an uncaught exception;
    the carried `RunState` records the final filesystem, the console lines
    printed, and the ordered trace of external invocations attempted.
-/

set_option maxHeartbeats 1000000

namespace Favicons

/-- Content of a file in the model: a PNG image with given pixel
dimensions, an ICO re-encoding of some content, or opaque other bytes. -/
inductive FileContent : Type where
  | png (width height : Nat) : FileContent
  | icoEncoded (orig : FileContent) : FileContent
  | other (tag : Nat) : FileContent
deriving DecidableEq, Repr

/-- Lookup of a path in an association list of files. -/
def lookupFile : List (String × FileContent) → String → Option FileContent
  | [], _ => none
  | kv :: t, p => if kv.1 == p then some kv.2 else lookupFile t p

/-- Removal of every binding of a path from an association list of files. -/
def dropFile : List (String × FileContent) → String → List (String × FileContent)
  | [], _ => []
  | kv :: t, p => if kv.1 == p then dropFile t p else kv :: dropFile t p

/-- The filesystem: the set of existing directories and the existing
files with their contents. -/
structure FS where
  dirs : List String
  files : List (String × FileContent)
deriving DecidableEq, Repr

/-- Content of the file at path `p`, if it exists. -/
def FS.getFile (fs : FS) (p : String) : Option FileContent :=
  lookupFile fs.files p

/-- Create or overwrite the file at path `p` with content `c`
(every tool invocation that writes a destination overwrites it). -/
def FS.setFile (fs : FS) (p : String) (c : FileContent) : FS :=
  { fs with files := (p, c) :: dropFile fs.files p }

/-- Delete the file at path `p` (the effect of os.remove, line 80). -/
def FS.removeFile (fs : FS) (p : String) : FS :=
  { fs with files := dropFile fs.files p }

/-- os.path.exists (line 5): true when `p` is an existing directory or an
existing file. -/
def FS.pathExists (fs : FS) (p : String) : Bool :=
  fs.dirs.contains p || (fs.getFile p).isSome

/-- os.makedirs(target_dir, exist_ok=True) (line 10): ensures the
directory exists; with exist_ok=True it never fails when the directory is
already present. -/
def FS.makedirs (fs : FS) (d : String) : FS :=
  { fs with dirs := if fs.dirs.contains d then fs.dirs else d :: fs.dirs }

/-- os.path.join(a, b) for the relative names used by the script. -/
def pathJoin (a b : String) : String := a ++ "/" ++ b

/-- One external invocation, carrying exactly the arguments the Python
code passes to subprocess.run. In `sipsResize h w src dst` the first
numeric field is the first dimension argument after `-z` (sips takes
height first, as on lines 50-52) and the second is the second. -/
inductive Cmd : Type where
  | sipsResize (h w : Nat) (src dst : String) : Cmd
  | sipsConvertIco (src dst : String) : Cmd
  | cp (src dst : String) : Cmd
deriving DecidableEq, Repr

/-- The literal argument vector passed to subprocess.run for a command:
lines 50-52 for resizes, lines 73-75 for the ICO conversion, line 78 for
the fallback copy. -/
def Cmd.argv : Cmd → List String
  | .sipsResize h w src dst => ["sips", "-z", toString h, toString w, src, "--out", dst]
  | .sipsConvertIco src dst => ["sips", "-s", "format", "ico", src, "--out", dst]
  | .cp src dst => ["cp", src, dst]

/-- The two dimension arguments of a resize invocation, in the order they
are passed on the command line (the two strings after `-z`). -/
def dimArgs : Cmd → List String
  | .sipsResize h w _ _ => [toString h, toString w]
  | _ => []

/-- Effect of a successfully completing invocation on the filesystem,
per the external tool's contract: `sips -z h w src --out dst` writes
`dst` as a `w × h` image (h is the height argument, w the width);
`sips -s format ico` writes an ICO re-encoding of the source file;
`cp` duplicates the source file's bytes at the destination. Sources are
present at every invocation the script issues, so the `.getD` default is
never observed. -/
def applyCmd (c : Cmd) (fs : FS) : FS :=
  match c with
  | .sipsResize h w _src dst => fs.setFile dst (.png w h)
  | .sipsConvertIco src dst =>
      fs.setFile dst (.icoEncoded ((fs.getFile src).getD (.other 0)))
  | .cp src dst => fs.setFile dst ((fs.getFile src).getD (.other 0))

/-- Exceptions the Python code can raise. -/
inductive PyErr : Type where
  | calledProcessError (c : Cmd) : PyErr
  | fileNotFoundError (p : String) : PyErr
deriving DecidableEq, Repr

/-- The mutable state threaded through a run: the filesystem, the console
lines printed so far, and the external invocations attempted so far in
order. -/
structure RunState where
  fs : FS
  console : List String
  trace : List Cmd
deriving DecidableEq, Repr

/-- Result of calling generate_favicons: `ok` models the Python function
returning None (its only return value), `raised` models an uncaught
exception propagating out of it. -/
inductive Outcome : Type where
  | ok (s : RunState) : Outcome
  | raised (e : PyErr) (s : RunState) : Outcome
deriving DecidableEq, Repr

/-- Append one printed line to the console (the effect of print). -/
def addLine (s : RunState) (line : String) : RunState :=
  { s with console := s.console ++ [line] }

/-- State after an invocation that completed successfully: the command is
appended to the trace and its effect applied to the filesystem. -/
def applyOk (c : Cmd) (s : RunState) : RunState :=
  { fs := applyCmd c s.fs, console := s.console, trace := s.trace ++ [c] }

/-- subprocess.run([...], check=True, capture_output=True): the command is
invoked (appended to the trace); if the external behaviour `b` has it exit
with status 0 its effect is applied, otherwise CalledProcessError is
raised carrying the state at the raise. -/
def runCmd (b : Cmd → Bool) (c : Cmd) (s : RunState) :
    Except (PyErr × RunState) RunState :=
  if b c then Except.ok (applyOk c s)
  else Except.error (PyErr.calledProcessError c, { s with trace := s.trace ++ [c] })

/-- The static specification table (lines 13-44 of the source), verbatim:
(filename, width, height) per entry. -/
def targets : List (String × Nat × Nat) :=
  [ ("android-chrome-144x144.png", 144, 144),
    ("android-chrome-192x192.png", 192, 192),
    ("android-chrome-256x256.png", 256, 256),
    ("android-chrome-36x36.png", 36, 36),
    ("android-chrome-384x384.png", 384, 384),
    ("android-chrome-48x48.png", 48, 48),
    ("android-chrome-512x512.png", 512, 512),
    ("android-chrome-72x72.png", 72, 72),
    ("android-chrome-96x96.png", 96, 96),
    ("apple-touch-icon-1024x1024.png", 1024, 1024),
    ("apple-touch-icon-114x114.png", 114, 114),
    ("apple-touch-icon-120x120.png", 120, 120),
    ("apple-touch-icon-144x144.png", 144, 144),
    ("apple-touch-icon-152x152.png", 152, 152),
    ("apple-touch-icon-167x167.png", 167, 167),
    ("apple-touch-icon-180x180.png", 180, 180),
    ("apple-touch-icon-57x57.png", 57, 57),
    ("apple-touch-icon-60x60.png", 60, 60),
    ("apple-touch-icon-72x72.png", 72, 72),
    ("apple-touch-icon-76x76.png", 76, 76),
    ("apple-touch-icon-precomposed.png", 180, 180),
    ("apple-touch-icon.png", 180, 180),
    ("favicon-16x16.png", 16, 16),
    ("favicon-32x32.png", 32, 32),
    ("favicon-48x48.png", 48, 48),
    ("mstile-144x144.png", 144, 144),
    ("mstile-150x150.png", 150, 150),
    ("mstile-310x310.png", 310, 310),
    ("mstile-70x70.png", 70, 70),
    ("yandex-browser-50x50.png", 50, 50) ]

/-- The resize command issued for a table entry (lines 50-52): note the
argument order `str(height), str(width)` after `-z`, and the destination
os.path.join(target_dir, filename). -/
def entryCmd (src dir : String) (e : String × Nat × Nat) : Cmd :=
  Cmd.sipsResize e.2.2 e.2.1 src (pathJoin dir e.1)

/-- The progress line printed for a table entry (line 47). -/
def entryLine (e : String × Nat × Nat) : String :=
  "Generating " ++ e.1 ++ " (" ++ toString e.2.1 ++ "x" ++ toString e.2.2 ++ ")..."

/-- The for-loop over the specification table (lines 46-52): print the
progress line, invoke the resize, propagate CalledProcessError uncaught. -/
def genLoop (b : Cmd → Bool) (src dir : String) :
    List (String × Nat × Nat) → RunState → Except (PyErr × RunState) RunState
  | [], s => Except.ok s
  | e :: rest, s =>
    match runCmd b (entryCmd src dir e) (addLine s (entryLine e)) with
    | Except.ok s1 => genLoop b src dir rest s1
    | Except.error err => Except.error err

/-- Destination of the special non-square tile (line 59). -/
def mstilePath (dir : String) : String := pathJoin dir "mstile-310x150.png"

/-- The special-case resize for mstile-310x150.png (lines 58-60): the two
dimension arguments passed after `-z` are the literals "150" and "310",
in that order. -/
def mstileCmd (src dir : String) : Cmd :=
  Cmd.sipsResize 150 310 src (mstilePath dir)

/-- Path of the temporary intermediate 32x32 image (line 64). -/
def tempPath (dir : String) : String := pathJoin dir "favicon_temp.png"

/-- The resize producing the temporary intermediate (lines 65-67). -/
def tempCmd (src dir : String) : Cmd :=
  Cmd.sipsResize 32 32 src (tempPath dir)

/-- Path of the final ICO output (lines 74, 78). -/
def icoPath (dir : String) : String := pathJoin dir "favicon.ico"

/-- The attempted ICO-format conversion (lines 73-75). -/
def convertCmd (dir : String) : Cmd :=
  Cmd.sipsConvertIco (tempPath dir) (icoPath dir)

/-- The fallback byte copy (line 78). -/
def cpCmd (dir : String) : Cmd :=
  Cmd.cp (tempPath dir) (icoPath dir)

/-- os.remove(temp_ico_png) followed by the function's implicit return
(line 80): raises FileNotFoundError if the path does not exist, otherwise
deletes it and the run completes returning None. -/
def osRemove (s : RunState) (p : String) : Outcome :=
  match s.fs.getFile p with
  | none => Outcome.raised (PyErr.fileNotFoundError p) s
  | some _ => Outcome.ok { s with fs := s.fs.removeFile p }

/-- Initial run state: the filesystem after os.makedirs (line 10),
nothing printed, no invocation issued yet. -/
def initState (fs0 : FS) (dir : String) : RunState :=
  { fs := fs0.makedirs dir, console := [], trace := [] }

/-- The whole of generate_favicons (lines 4-80), parametrised by the
external behaviour `b` and the initial filesystem.

Line-by-line: the source-existence check and early return (lines 5-7);
os.makedirs (line 10); the loop over the table (lines 46-52); the special
tile (lines 55-60); the temporary 32x32 intermediate (lines 63-67); the
try/except around the ICO conversion where only CalledProcessError from
that one invocation is caught (lines 72-78); os.remove outside the
try/except (line 80), reached on the conversion-success path and on the
fallback-copy-success path, but not when the fallback copy itself
raises. -/
def generate_favicons (b : Cmd → Bool) (source_path target_dir : String)
    (fs0 : FS) : Outcome :=
  if FS.pathExists fs0 source_path = false then
    Outcome.ok { fs := fs0,
                 console := ["Error: Source file " ++ source_path ++ " not found."],
                 trace := [] }
  else
    match genLoop b source_path target_dir targets (initState fs0 target_dir) with
    | Except.error (e, s) => Outcome.raised e s
    | Except.ok s =>
      match runCmd b (mstileCmd source_path target_dir)
              (addLine s "Generating mstile-310x150.png...") with
      | Except.error (e, s) => Outcome.raised e s
      | Except.ok s =>
        match runCmd b (tempCmd source_path target_dir)
                (addLine s "Generating favicon.ico...") with
        | Except.error (e, s) => Outcome.raised e s
        | Except.ok s =>
          match runCmd b (convertCmd target_dir) s with
          | Except.ok s => osRemove s (tempPath target_dir)
          | Except.error (_, s) =>
            match runCmd b (cpCmd target_dir)
                    (addLine s "sips ico export failed, falling back to PNG-as-ICO...") with
            | Except.error (e, s) => Outcome.raised e s
            | Except.ok s => osRemove s (tempPath target_dir)

/-- The external behaviour in which every invocation exits with status 0. -/
def allOk : Cmd → Bool := fun _ => true

/-- One successful iteration of the table loop. -/
def loopStep (src dir : String) (s : RunState) (e : String × Nat × Nat) : RunState :=
  applyOk (entryCmd src dir e) (addLine s (entryLine e))

/-- State after the whole table loop when every resize succeeded. -/
def loopState (src dir : String) (fs0 : FS) : RunState :=
  targets.foldl (loopStep src dir) (initState fs0 dir)

/-- State just after the temporary intermediate has been produced (all
resizes so far successful). -/
def preIcoState (src dir : String) (fs0 : FS) : RunState :=
  applyOk (tempCmd src dir)
    (addLine (applyOk (mstileCmd src dir)
        (addLine (loopState src dir fs0) "Generating mstile-310x150.png..."))
      "Generating favicon.ico...")

/-- Final state of a run whose ICO conversion succeeded: the conversion's
effect applied, then the temporary intermediate removed. -/
def successState (src dir : String) (fs0 : FS) : RunState :=
  let s := applyOk (convertCmd dir) (preIcoState src dir fs0)
  { s with fs := s.fs.removeFile (tempPath dir) }

/-- Final state of a run whose ICO conversion failed but whose fallback
copy succeeded: the failed conversion is in the trace with no filesystem
effect, the fallback notice is printed, the copy's effect applied, then
the temporary intermediate removed. -/
def fallbackState (src dir : String) (fs0 : FS) : RunState :=
  let s0 := preIcoState src dir fs0
  let s1 : RunState :=
    { fs := s0.fs,
      console := s0.console ++ ["sips ico export failed, falling back to PNG-as-ICO..."],
      trace := s0.trace ++ [convertCmd dir] }
  let s2 := applyOk (cpCmd dir) s1
  { s2 with fs := s2.fs.removeFile (tempPath dir) }

/-- State carried by the exception when both the ICO conversion and the
fallback copy fail: os.remove is never reached, so the temporary
intermediate is still on disk. -/
def cpFailState (src dir : String) (fs0 : FS) : RunState :=
  let s0 := preIcoState src dir fs0
  { fs := s0.fs,
    console := s0.console ++ ["sips ico export failed, falling back to PNG-as-ICO..."],
    trace := s0.trace ++ [convertCmd dir] ++ [cpCmd dir] }

/-- State carried by the exception when the resize of a table entry
fails, `pre` being the entries already processed. -/
def failState (src dir : String) (pre : List (String × Nat × Nat))
    (x : String × Nat × Nat) (fs0 : FS) : RunState :=
  let s := pre.foldl (loopStep src dir) (initState fs0 dir)
  { fs := s.fs,
    console := s.console ++ [entryLine x],
    trace := s.trace ++ [entryCmd src dir x] }

/-- Projection: the run state an outcome carries. -/
def Outcome.finalState : Outcome → RunState
  | .ok s => s
  | .raised _ s => s

/-- Whether the call returned normally (Python return value None) rather
than raising. -/
def Outcome.isOk : Outcome → Bool
  | .ok _ => true
  | .raised _ _ => false

/-- The paths of the files that exist under `dir` (paths beginning with
the directory name and a slash). -/
def filesUnder (fs : FS) (dir : String) : List String :=
  (fs.files.map Prod.fst).filter (fun p => (dir ++ "/").data.isPrefixOf p.data)

/-- A concrete initial filesystem: just the source image. -/
def demoFS : FS := { dirs := [], files := [("logo.png", FileContent.other 0)] }

/-- An empty filesystem. -/
def emptyFS : FS := { dirs := [], files := [] }

/-- A concrete fully successful run. -/
def demoRun : Outcome := generate_favicons allOk "logo.png" "out" demoFS

/-- Behaviour in which the ICO conversion fails and everything else
succeeds. -/
def bConvFail : Cmd → Bool := fun c =>
  match c with
  | .sipsConvertIco _ _ => false
  | _ => true

/-- Behaviour in which the ICO conversion and the fallback copy both
fail. -/
def bConvCpFail : Cmd → Bool := fun c =>
  match c with
  | .sipsConvertIco _ _ => false
  | .cp _ _ => false
  | _ => true

/-- Behaviour in which exactly the resize of the third table entry
fails. -/
def bThirdFail : Cmd → Bool := fun c =>
  !(c == Cmd.sipsResize 256 256 "logo.png" (pathJoin "out" "android-chrome-256x256.png"))

theorem lookupFile_dropFile_ne (p q : String) (hq : q ≠ p) :
    ∀ l : List (String × FileContent), lookupFile (dropFile l p) q = lookupFile l q := by
  intro l
  induction l with
  | nil => rfl
  | cons kv t ih =>
    by_cases h1 : kv.1 = p
    · simp [dropFile, lookupFile, h1, ih, Ne.symm hq]
    · simp [dropFile, lookupFile, h1, ih]

theorem lookupFile_dropFile_same (p : String) :
    ∀ l : List (String × FileContent), lookupFile (dropFile l p) p = none := by
  intro l
  induction l with
  | nil => rfl
  | cons kv t ih =>
    by_cases h1 : kv.1 = p
    · simp [dropFile, h1, ih]
    · simp [dropFile, lookupFile, h1, ih]

theorem getFile_setFile_same (fs : FS) (p : String) (c : FileContent) :
    (fs.setFile p c).getFile p = some c := by
  simp [FS.setFile, FS.getFile, lookupFile]

theorem getFile_setFile_ne (fs : FS) (p : String) (c : FileContent) (q : String)
    (hq : q ≠ p) : (fs.setFile p c).getFile q = fs.getFile q := by
  simp [FS.setFile, FS.getFile, lookupFile, Ne.symm hq, lookupFile_dropFile_ne p q hq]

theorem getFile_removeFile_same (fs : FS) (p : String) :
    (fs.removeFile p).getFile p = none := by
  simp [FS.removeFile, FS.getFile, lookupFile_dropFile_same]

theorem getFile_removeFile_ne (fs : FS) (p q : String) (hq : q ≠ p) :
    (fs.removeFile p).getFile q = fs.getFile q := by
  simp [FS.removeFile, FS.getFile, lookupFile_dropFile_ne p q hq]

theorem pathJoin_inj (dir a b : String) (h : pathJoin dir a = pathJoin dir b) :
    a = b := by
  have hd := congrArg String.data h
  simp only [pathJoin, String.data_append] at hd
  have := List.append_cancel_left hd
  exact String.ext this

theorem pathJoin_ne (dir a b : String) (h : a ≠ b) :
    pathJoin dir a ≠ pathJoin dir b :=
  fun hc => h (pathJoin_inj dir a b hc)

theorem runCmd_ok (b : Cmd → Bool) (c : Cmd) (s : RunState) (h : b c = true) :
    runCmd b c s = Except.ok (applyOk c s) := by
  simp [runCmd, h]

theorem runCmd_fail (b : Cmd → Bool) (c : Cmd) (s : RunState) (h : b c = false) :
    runCmd b c s = Except.error (PyErr.calledProcessError c,
      { s with trace := s.trace ++ [c] }) := by
  simp [runCmd, h]

theorem genLoop_ok_inv (b : Cmd → Bool) (src dir : String) :
    ∀ (l : List (String × Nat × Nat)) (s s1 : RunState),
      genLoop b src dir l s = Except.ok s1 →
      (∀ e ∈ l, b (entryCmd src dir e) = true) ∧
        s1 = l.foldl (loopStep src dir) s := by
  intro l
  induction l with
  | nil =>
    intro s s1 h
    simp [genLoop] at h
    simp [h]
  | cons e rest ih =>
    intro s s1 h
    unfold genLoop at h
    cases hb : b (entryCmd src dir e) with
    | false => rw [runCmd_fail _ _ _ hb] at h; simp at h
    | true =>
      rw [runCmd_ok _ _ _ hb] at h
      simp only [] at h
      obtain ⟨h1, h2⟩ := ih _ _ h
      refine ⟨?_, ?_⟩
      · intro e' he'
        rcases List.mem_cons.mp he' with he' | he'
        · subst he'; exact hb
        · exact h1 e' he'
      · simpa [List.foldl_cons, loopStep] using h2

theorem genLoop_all_ok (b : Cmd → Bool) (src dir : String) :
    ∀ (l : List (String × Nat × Nat)) (s : RunState),
      (∀ e ∈ l, b (entryCmd src dir e) = true) →
      genLoop b src dir l s = Except.ok (l.foldl (loopStep src dir) s) := by
  intro l
  induction l with
  | nil => intro s _; rfl
  | cons e rest ih =>
    intro s hall
    have hb : b (entryCmd src dir e) = true := hall e (List.mem_cons_self e rest)
    unfold genLoop
    rw [runCmd_ok _ _ _ hb]
    simpa [List.foldl_cons, loopStep] using
      ih _ (fun e' he' => hall e' (List.mem_cons_of_mem e he'))

theorem genLoop_split_fail (b : Cmd → Bool) (src dir : String)
    (x : String × Nat × Nat) (post : List (String × Nat × Nat))
    (hx : b (entryCmd src dir x) = false) :
    ∀ (pre : List (String × Nat × Nat)) (s : RunState),
      (∀ e ∈ pre, b (entryCmd src dir e) = true) →
      genLoop b src dir (pre ++ x :: post) s =
        Except.error (PyErr.calledProcessError (entryCmd src dir x),
          { fs := (pre.foldl (loopStep src dir) s).fs,
            console := (pre.foldl (loopStep src dir) s).console ++ [entryLine x],
            trace := (pre.foldl (loopStep src dir) s).trace ++ [entryCmd src dir x] }) := by
  intro pre
  induction pre with
  | nil =>
    intro s _
    simp only [List.nil_append, List.foldl_nil]
    unfold genLoop
    rw [runCmd_fail _ _ _ hx]
    rfl
  | cons e rest ih =>
    intro s hall
    have hb : b (entryCmd src dir e) = true := hall e (List.mem_cons_self e rest)
    simp only [List.cons_append]
    unfold genLoop
    rw [runCmd_ok _ _ _ hb]
    simpa [List.foldl_cons, loopStep] using
      ih _ (fun e' he' => hall e' (List.mem_cons_of_mem e he'))

theorem loopFold_trace (src dir : String) :
    ∀ (l : List (String × Nat × Nat)) (s : RunState),
      (l.foldl (loopStep src dir) s).trace = s.trace ++ l.map (entryCmd src dir) := by
  intro l
  induction l with
  | nil => intro s; simp
  | cons e rest ih =>
    intro s
    simp [List.foldl_cons, ih, loopStep, applyOk, addLine]

theorem loopFold_console (src dir : String) :
    ∀ (l : List (String × Nat × Nat)) (s : RunState),
      (l.foldl (loopStep src dir) s).console = s.console ++ l.map entryLine := by
  intro l
  induction l with
  | nil => intro s; simp
  | cons e rest ih =>
    intro s
    simp [List.foldl_cons, ih, loopStep, applyOk, addLine]

theorem getFile_loopFold_fresh (src dir p : String) :
    ∀ (l : List (String × Nat × Nat)) (s : RunState),
      (∀ e ∈ l, p ≠ pathJoin dir e.1) →
      ((l.foldl (loopStep src dir) s).fs).getFile p = s.fs.getFile p := by
  intro l
  induction l with
  | nil => intro s _; rfl
  | cons e rest ih =>
    intro s hfresh
    simp only [List.foldl_cons]
    rw [ih _ (fun e' he' => hfresh e' (List.mem_cons_of_mem e he'))]
    simp [loopStep, applyOk, addLine, applyCmd, entryCmd,
      getFile_setFile_ne _ _ _ _ (hfresh e (List.mem_cons_self e rest))]

theorem getFile_loopFold_mem (src dir : String) :
    ∀ (l : List (String × Nat × Nat)) (s : RunState) (f : String) (w h : Nat),
      (f, w, h) ∈ l → (l.map (fun e => e.1)).Nodup →
      ((l.foldl (loopStep src dir) s).fs).getFile (pathJoin dir f) =
        some (FileContent.png w h) := by
  intro l
  induction l with
  | nil => intro s f w h hmem _; simp at hmem
  | cons e rest ih =>
    intro s f w h hmem hnd
    simp only [List.map_cons, List.nodup_cons] at hnd
    rcases List.mem_cons.mp hmem with he | he
    · subst he
      simp only [List.foldl_cons]
      have hfresh : ∀ e' ∈ rest, pathJoin dir f ≠ pathJoin dir e'.1 := by
        intro e' he'
        refine pathJoin_ne dir _ _ ?_
        intro hc
        exact hnd.1 (hc ▸ List.mem_map_of_mem (fun e => e.1) he')
      rw [getFile_loopFold_fresh src dir _ rest _ hfresh]
      simp [loopStep, applyOk, addLine, applyCmd, entryCmd, getFile_setFile_same]
    · simp only [List.foldl_cons]
      exact ih _ f w h he hnd.2

theorem tempPath_ne_icoPath (dir : String) : tempPath dir ≠ icoPath dir :=
  pathJoin_ne dir _ _ (by decide)

theorem tempPath_ne_mstilePath (dir : String) : tempPath dir ≠ mstilePath dir :=
  pathJoin_ne dir _ _ (by decide)

theorem osRemove_some (s : RunState) (p : String) (c : FileContent)
    (h : s.fs.getFile p = some c) :
    osRemove s p = Outcome.ok { s with fs := s.fs.removeFile p } := by
  simp [osRemove, h]

theorem getFile_temp_after_convert (src dir : String) (st : RunState) :
    ((applyOk (convertCmd dir) (applyOk (tempCmd src dir) st)).fs).getFile
      (tempPath dir) = some (FileContent.png 32 32) := by
  simp [applyOk, applyCmd, convertCmd, tempCmd,
    getFile_setFile_ne _ _ _ _ (tempPath_ne_icoPath dir), getFile_setFile_same]

theorem run_ok_cases (b : Cmd → Bool) (src dir : String) (fs0 : FS) (s : RunState)
    (hsrc : FS.pathExists fs0 src = true)
    (h : generate_favicons b src dir fs0 = Outcome.ok s) :
    (∀ e ∈ targets, b (entryCmd src dir e) = true) ∧
    b (mstileCmd src dir) = true ∧ b (tempCmd src dir) = true ∧
    ((b (convertCmd dir) = true ∧ s = successState src dir fs0) ∨
     (b (convertCmd dir) = false ∧ b (cpCmd dir) = true ∧
        s = fallbackState src dir fs0)) := by
  unfold generate_favicons at h
  rw [if_neg (by simp [hsrc])] at h
  cases hgl : genLoop b src dir targets (initState fs0 dir) with
  | error es =>
    rw [hgl] at h
    obtain ⟨e1, s1⟩ := es
    simp at h
  | ok s1 =>
    rw [hgl] at h
    obtain ⟨hall, hs1⟩ := genLoop_ok_inv b src dir targets _ s1 hgl
    subst hs1
    dsimp only at h
    refine ⟨hall, ?_⟩
    cases hb1 : b (mstileCmd src dir) with
    | false => rw [runCmd_fail _ _ _ hb1] at h; simp at h
    | true =>
      rw [runCmd_ok _ _ _ hb1] at h
      simp only [] at h
      refine ⟨rfl, ?_⟩
      cases hb2 : b (tempCmd src dir) with
      | false => rw [runCmd_fail _ _ _ hb2] at h; simp at h
      | true =>
        rw [runCmd_ok _ _ _ hb2] at h
        simp only [] at h
        refine ⟨rfl, ?_⟩
        cases hb3 : b (convertCmd dir) with
        | true =>
          rw [runCmd_ok _ _ _ hb3] at h
          simp only [] at h
          rw [osRemove_some _ _ _ (getFile_temp_after_convert src dir _)] at h
          simp only [Outcome.ok.injEq] at h
          subst h
          exact Or.inl ⟨rfl, rfl⟩
        | false =>
          rw [runCmd_fail _ _ _ hb3] at h
          simp only [] at h
          cases hb4 : b (cpCmd dir) with
          | false => rw [runCmd_fail _ _ _ hb4] at h; simp at h
          | true =>
            rw [runCmd_ok _ _ _ hb4] at h
            simp only [] at h
            have htemp : ((applyOk (cpCmd dir)
                (addLine { applyOk (tempCmd src dir)
                    (addLine (applyOk (mstileCmd src dir)
                        (addLine (targets.foldl (loopStep src dir) (initState fs0 dir))
                          "Generating mstile-310x150.png..."))
                      "Generating favicon.ico...") with
                  trace := (applyOk (tempCmd src dir)
                    (addLine (applyOk (mstileCmd src dir)
                        (addLine (targets.foldl (loopStep src dir) (initState fs0 dir))
                          "Generating mstile-310x150.png..."))
                      "Generating favicon.ico...")).trace ++ [convertCmd dir] }
                  "sips ico export failed, falling back to PNG-as-ICO...")).fs).getFile
                (tempPath dir) = some (FileContent.png 32 32) := by
              simp [applyOk, applyCmd, cpCmd, tempCmd, addLine,
                getFile_setFile_ne _ _ _ _ (tempPath_ne_icoPath dir),
                getFile_setFile_same]
            rw [osRemove_some _ _ _ htemp] at h
            simp only [Outcome.ok.injEq] at h
            subst h
            exact Or.inr ⟨rfl, rfl, rfl⟩

theorem getFile_temp_after_cp (src dir : String) (st : RunState) (tr : List Cmd)
    (line1 : String) :
    ((applyOk (cpCmd dir)
        (addLine { applyOk (tempCmd src dir) st with trace := tr } line1)).fs).getFile
      (tempPath dir) = some (FileContent.png 32 32) := by
  simp [applyOk, applyCmd, cpCmd, tempCmd, addLine,
    getFile_setFile_ne _ _ _ _ (tempPath_ne_icoPath dir), getFile_setFile_same]

theorem run_eval_success (b : Cmd → Bool) (src dir : String) (fs0 : FS)
    (hsrc : FS.pathExists fs0 src = true)
    (hall : ∀ e ∈ targets, b (entryCmd src dir e) = true)
    (hb1 : b (mstileCmd src dir) = true) (hb2 : b (tempCmd src dir) = true)
    (hb3 : b (convertCmd dir) = true) :
    generate_favicons b src dir fs0 = Outcome.ok (successState src dir fs0) := by
  unfold generate_favicons
  rw [if_neg (by simp [hsrc])]
  rw [genLoop_all_ok b src dir targets _ hall]
  simp only []
  rw [runCmd_ok _ _ _ hb1]
  simp only []
  rw [runCmd_ok _ _ _ hb2]
  simp only []
  rw [runCmd_ok _ _ _ hb3]
  simp only []
  rw [osRemove_some _ _ _ (getFile_temp_after_convert src dir _)]
  rfl

theorem run_eval_fallback (b : Cmd → Bool) (src dir : String) (fs0 : FS)
    (hsrc : FS.pathExists fs0 src = true)
    (hall : ∀ e ∈ targets, b (entryCmd src dir e) = true)
    (hb1 : b (mstileCmd src dir) = true) (hb2 : b (tempCmd src dir) = true)
    (hb3 : b (convertCmd dir) = false) (hb4 : b (cpCmd dir) = true) :
    generate_favicons b src dir fs0 = Outcome.ok (fallbackState src dir fs0) := by
  unfold generate_favicons
  rw [if_neg (by simp [hsrc])]
  rw [genLoop_all_ok b src dir targets _ hall]
  simp only []
  rw [runCmd_ok _ _ _ hb1]
  simp only []
  rw [runCmd_ok _ _ _ hb2]
  simp only []
  rw [runCmd_fail _ _ _ hb3]
  simp only []
  rw [runCmd_ok _ _ _ hb4]
  simp only []
  rw [osRemove_some _ _ _ (getFile_temp_after_cp src dir _ _ _)]
  rfl

theorem run_eval_cpfail (b : Cmd → Bool) (src dir : String) (fs0 : FS)
    (hsrc : FS.pathExists fs0 src = true)
    (hall : ∀ e ∈ targets, b (entryCmd src dir e) = true)
    (hb1 : b (mstileCmd src dir) = true) (hb2 : b (tempCmd src dir) = true)
    (hb3 : b (convertCmd dir) = false) (hb4 : b (cpCmd dir) = false) :
    generate_favicons b src dir fs0 =
      Outcome.raised (PyErr.calledProcessError (cpCmd dir))
        (cpFailState src dir fs0) := by
  unfold generate_favicons
  rw [if_neg (by simp [hsrc])]
  rw [genLoop_all_ok b src dir targets _ hall]
  simp only []
  rw [runCmd_ok _ _ _ hb1]
  simp only []
  rw [runCmd_ok _ _ _ hb2]
  simp only []
  rw [runCmd_fail _ _ _ hb3]
  simp only []
  rw [runCmd_fail _ _ _ hb4]
  rfl

theorem run_allOk (src dir : String) (fs0 : FS)
    (hsrc : FS.pathExists fs0 src = true) :
    generate_favicons allOk src dir fs0 = Outcome.ok (successState src dir fs0) :=
  run_eval_success allOk src dir fs0 hsrc (fun _ _ => rfl) rfl rfl rfl

theorem run_raised_at_entry (b : Cmd → Bool) (src dir : String) (fs0 : FS)
    (pre post : List (String × Nat × Nat)) (x : String × Nat × Nat)
    (hsrc : FS.pathExists fs0 src = true)
    (hsplit : targets = pre ++ x :: post)
    (hpre : ∀ e ∈ pre, b (entryCmd src dir e) = true)
    (hx : b (entryCmd src dir x) = false) :
    generate_favicons b src dir fs0 =
      Outcome.raised (PyErr.calledProcessError (entryCmd src dir x))
        (failState src dir pre x fs0) := by
  unfold generate_favicons
  rw [if_neg (by simp [hsrc])]
  rw [hsplit, genLoop_split_fail b src dir x post hx pre _ hpre]
  rfl

theorem targets_names_nodup : (targets.map (fun e => e.1)).Nodup := by decide

theorem targets_fresh : ∀ e ∈ targets,
    e.1 ≠ "mstile-310x150.png" ∧ e.1 ≠ "favicon_temp.png" ∧ e.1 ≠ "favicon.ico" := by
  decide

theorem getFile_successState_entry (src dir : String) (fs0 : FS) (f : String)
    (w h : Nat) (hmem : (f, w, h) ∈ targets) :
    ((successState src dir fs0).fs).getFile (pathJoin dir f) =
      some (FileContent.png w h) := by
  obtain ⟨hm, ht, hi⟩ := targets_fresh (f, w, h) hmem
  simp only [successState, preIcoState, applyOk, addLine, applyCmd, convertCmd,
    tempCmd, mstileCmd, tempPath, icoPath, mstilePath]
  rw [getFile_removeFile_ne _ _ _ (pathJoin_ne dir f _ ht),
    getFile_setFile_ne _ _ _ _ (pathJoin_ne dir f _ hi),
    getFile_setFile_ne _ _ _ _ (pathJoin_ne dir f _ ht),
    getFile_setFile_ne _ _ _ _ (pathJoin_ne dir f _ hm)]
  exact getFile_loopFold_mem src dir targets _ f w h hmem targets_names_nodup

theorem getFile_fallbackState_entry (src dir : String) (fs0 : FS) (f : String)
    (w h : Nat) (hmem : (f, w, h) ∈ targets) :
    ((fallbackState src dir fs0).fs).getFile (pathJoin dir f) =
      some (FileContent.png w h) := by
  obtain ⟨hm, ht, hi⟩ := targets_fresh (f, w, h) hmem
  simp only [fallbackState, preIcoState, applyOk, addLine, applyCmd, convertCmd,
    tempCmd, mstileCmd, cpCmd, tempPath, icoPath, mstilePath]
  rw [getFile_removeFile_ne _ _ _ (pathJoin_ne dir f _ ht),
    getFile_setFile_ne _ _ _ _ (pathJoin_ne dir f _ hi),
    getFile_setFile_ne _ _ _ _ (pathJoin_ne dir f _ ht),
    getFile_setFile_ne _ _ _ _ (pathJoin_ne dir f _ hm)]
  exact getFile_loopFold_mem src dir targets _ f w h hmem targets_names_nodup

theorem getFile_successState_temp (src dir : String) (fs0 : FS) :
    ((successState src dir fs0).fs).getFile (tempPath dir) = none := by
  simp only [successState]
  exact getFile_removeFile_same _ _

theorem getFile_fallbackState_temp (src dir : String) (fs0 : FS) :
    ((fallbackState src dir fs0).fs).getFile (tempPath dir) = none := by
  simp only [fallbackState]
  exact getFile_removeFile_same _ _

theorem getFile_successState_ico (src dir : String) (fs0 : FS) :
    ((successState src dir fs0).fs).getFile (icoPath dir) =
      some (FileContent.icoEncoded (FileContent.png 32 32)) := by
  simp only [successState, preIcoState, applyOk, addLine, applyCmd, convertCmd,
    tempCmd, mstileCmd]
  rw [getFile_removeFile_ne _ _ _ (Ne.symm (tempPath_ne_icoPath dir)),
    getFile_setFile_same, getFile_setFile_same]
  rfl

theorem getFile_fallbackState_ico (src dir : String) (fs0 : FS) :
    ((fallbackState src dir fs0).fs).getFile (icoPath dir) =
      some (FileContent.png 32 32) := by
  simp only [fallbackState, preIcoState, applyOk, addLine, applyCmd, convertCmd,
    tempCmd, mstileCmd, cpCmd]
  rw [getFile_removeFile_ne _ _ _ (Ne.symm (tempPath_ne_icoPath dir)),
    getFile_setFile_same, getFile_setFile_same]
  rfl

theorem mstilePath_ne_tempPath (dir : String) : mstilePath dir ≠ tempPath dir :=
  pathJoin_ne dir _ _ (by decide)

theorem mstilePath_ne_icoPath (dir : String) : mstilePath dir ≠ icoPath dir :=
  pathJoin_ne dir _ _ (by decide)

theorem getFile_successState_mstile (src dir : String) (fs0 : FS) :
    ((successState src dir fs0).fs).getFile (mstilePath dir) =
      some (FileContent.png 310 150) := by
  simp only [successState, preIcoState, applyOk, addLine, applyCmd, convertCmd,
    tempCmd, mstileCmd]
  rw [getFile_removeFile_ne _ _ _ (mstilePath_ne_tempPath dir),
    getFile_setFile_ne _ _ _ _ (mstilePath_ne_icoPath dir),
    getFile_setFile_ne _ _ _ _ (mstilePath_ne_tempPath dir),
    getFile_setFile_same]

theorem getFile_fallbackState_mstile (src dir : String) (fs0 : FS) :
    ((fallbackState src dir fs0).fs).getFile (mstilePath dir) =
      some (FileContent.png 310 150) := by
  simp only [fallbackState, preIcoState, applyOk, addLine, applyCmd, convertCmd,
    tempCmd, mstileCmd, cpCmd]
  rw [getFile_removeFile_ne _ _ _ (mstilePath_ne_tempPath dir),
    getFile_setFile_ne _ _ _ _ (mstilePath_ne_icoPath dir),
    getFile_setFile_ne _ _ _ _ (mstilePath_ne_tempPath dir),
    getFile_setFile_same]

theorem pathExists_setFile (fs : FS) (p : String) (c : FileContent) (q : String)
    (h : fs.pathExists q = true) : (fs.setFile p c).pathExists q = true := by
  simp only [FS.pathExists, Bool.or_eq_true] at h ⊢
  rcases h with h | h
  · exact Or.inl h
  · by_cases hq : q = p
    · subst hq
      exact Or.inr (by simp [getFile_setFile_same])
    · exact Or.inr (by rw [getFile_setFile_ne _ _ _ _ hq]; exact h)

theorem pathExists_removeFile (fs : FS) (p q : String) (hq : q ≠ p)
    (h : fs.pathExists q = true) : (fs.removeFile p).pathExists q = true := by
  simp only [FS.pathExists, Bool.or_eq_true] at h ⊢
  rcases h with h | h
  · exact Or.inl h
  · exact Or.inr (by rw [getFile_removeFile_ne _ _ _ hq]; exact h)

theorem pathExists_makedirs (fs : FS) (d q : String)
    (h : fs.pathExists q = true) : (fs.makedirs d).pathExists q = true := by
  simp only [FS.pathExists, FS.makedirs, Bool.or_eq_true] at h ⊢
  rcases h with h | h
  · refine Or.inl ?_
    by_cases hc : fs.dirs.contains d = true
    · rw [if_pos hc]
      exact h
    · rw [if_neg hc, List.contains_cons]
      simp at h ⊢
      exact Or.inr h
  · exact Or.inr h

theorem successState_trace (src dir : String) (fs0 : FS) :
    (successState src dir fs0).trace =
      targets.map (entryCmd src dir) ++ [mstileCmd src dir] ++ [tempCmd src dir]
        ++ [convertCmd dir] := by
  simp [successState, preIcoState, applyOk, addLine, loopState, loopFold_trace,
    initState]

theorem fallbackState_trace (src dir : String) (fs0 : FS) :
    (fallbackState src dir fs0).trace =
      targets.map (entryCmd src dir) ++ [mstileCmd src dir] ++ [tempCmd src dir]
        ++ [convertCmd dir] ++ [cpCmd dir] := by
  simp [fallbackState, preIcoState, applyOk, addLine, loopState, loopFold_trace,
    initState]

theorem entryCmd_inj_name (src dir : String) (e : String × Nat × Nat)
    (f : String) (w h : Nat)
    (hc : entryCmd src dir e = entryCmd src dir (f, w, h)) : e.1 = f := by
  simp only [entryCmd, Cmd.sipsResize.injEq] at hc
  exact pathJoin_inj dir e.1 f hc.2.2.2

theorem entryCmd_ne_mstileCmd (src dir : String) (e : String × Nat × Nat)
    (he : e ∈ targets) : entryCmd src dir e ≠ mstileCmd src dir := by
  intro hc
  simp only [entryCmd, mstileCmd, mstilePath, Cmd.sipsResize.injEq] at hc
  exact (targets_fresh e he).1 (pathJoin_inj dir e.1 _ hc.2.2.2)

theorem entryCmd_ne_tempCmd (src dir : String) (e : String × Nat × Nat)
    (he : e ∈ targets) : entryCmd src dir e ≠ tempCmd src dir := by
  intro hc
  simp only [entryCmd, tempCmd, tempPath, Cmd.sipsResize.injEq] at hc
  exact (targets_fresh e he).2.1 (pathJoin_inj dir e.1 _ hc.2.2.2)

theorem count_map_entryCmd (src dir : String) (f : String) (w h : Nat) :
    ∀ l : List (String × Nat × Nat), (f, w, h) ∈ l →
      (l.map (fun e => e.1)).Nodup →
      (l.map (entryCmd src dir)).count (entryCmd src dir (f, w, h)) = 1 := by
  intro l
  induction l with
  | nil => intro hmem _; simp at hmem
  | cons e rest ih =>
    intro hmem hnd
    simp only [List.map_cons, List.nodup_cons] at hnd
    rcases List.mem_cons.mp hmem with he | he
    · have he' : e = (f, w, h) := he.symm
      subst he'
      rw [List.map_cons, List.count_cons_self]
      have hz : (rest.map (entryCmd src dir)).count (entryCmd src dir (f, w, h)) = 0 := by
        rw [List.count_eq_zero]
        intro hc
        rcases List.mem_map.mp hc with ⟨e', he', heq⟩
        exact hnd.1 ((entryCmd_inj_name src dir e' f w h heq) ▸
          List.mem_map_of_mem (fun e => e.1) he')
      rw [hz]
    · have hne : entryCmd src dir e ≠ entryCmd src dir (f, w, h) := by
        intro hc
        refine hnd.1 ?_
        rw [entryCmd_inj_name src dir e f w h hc]
        exact List.mem_map_of_mem (fun e => e.1) he
      rw [List.map_cons, List.count_cons_of_ne (Ne.symm hne)]
      exact ih he hnd.2

theorem count_map_mstileCmd (src dir : String) :
    (targets.map (entryCmd src dir)).count (mstileCmd src dir) = 0 := by
  rw [List.count_eq_zero]
  intro hc
  rcases List.mem_map.mp hc with ⟨e', he', heq⟩
  exact entryCmd_ne_mstileCmd src dir e' he' heq

theorem pathExists_loopFold (src dir q : String) :
    ∀ (l : List (String × Nat × Nat)) (s : RunState),
      s.fs.pathExists q = true →
      ((l.foldl (loopStep src dir) s).fs).pathExists q = true := by
  intro l
  induction l with
  | nil => intro s h; exact h
  | cons e rest ih =>
    intro s h
    simp only [List.foldl_cons]
    refine ih _ ?_
    simp only [loopStep, applyOk, addLine, applyCmd, entryCmd]
    exact pathExists_setFile _ _ _ _ h

theorem pathExists_successState (src dir : String) (fs0 : FS) (q : String)
    (hq : q ≠ tempPath dir) (h : fs0.pathExists q = true) :
    ((successState src dir fs0).fs).pathExists q = true := by
  simp only [successState, preIcoState, applyOk, addLine, applyCmd, convertCmd,
    tempCmd, mstileCmd]
  refine pathExists_removeFile _ _ _ hq ?_
  refine pathExists_setFile _ _ _ _ ?_
  refine pathExists_setFile _ _ _ _ ?_
  refine pathExists_setFile _ _ _ _ ?_
  refine pathExists_loopFold src dir q targets _ ?_
  exact pathExists_makedirs fs0 dir q h

theorem run_missing_source (b : Cmd → Bool) (src dir : String) (fs0 : FS)
    (hsrc : FS.pathExists fs0 src = false) :
    generate_favicons b src dir fs0 =
      Outcome.ok { fs := fs0,
                   console := ["Error: Source file " ++ src ++ " not found."],
                   trace := [] } := by
  unfold generate_favicons
  rw [if_pos hsrc]

theorem count_single_self {A : Type} [DecidableEq A] (a : A) : [a].count a = 1 := by
  simp

theorem count_single_ne {A : Type} [DecidableEq A] (a x : A) (h : a ≠ x) :
    [x].count a = 0 := by
  simp [h]

theorem mstileCmd_ne_tempCmd (src dir : String) :
    mstileCmd src dir ≠ tempCmd src dir := by
  simp [mstileCmd, tempCmd]

theorem mstileCmd_ne_convertCmd (src dir : String) :
    mstileCmd src dir ≠ convertCmd dir := by
  simp [mstileCmd, convertCmd]

theorem mstileCmd_ne_cpCmd (src dir : String) :
    mstileCmd src dir ≠ cpCmd dir := by
  simp [mstileCmd, cpCmd]

theorem entryCmd_ne_convertCmd (src dir : String) (e : String × Nat × Nat) :
    entryCmd src dir e ≠ convertCmd dir := by
  simp [entryCmd, convertCmd]

theorem entryCmd_ne_cpCmd (src dir : String) (e : String × Nat × Nat) :
    entryCmd src dir e ≠ cpCmd dir := by
  simp [entryCmd, cpCmd]

/-- Claim C1 (counterexample): the claim states that the specification
table has exactly 29 entries and that a successful run leaves exactly 31
files in the target directory. In the code the table has 30 entries, and
the concrete successful run demoRun leaves 32 files under the target
directory, so the claim is false. -/
theorem C1_counterexample :
    targets.length ≠ 29 ∧
    demoRun.isOk = true ∧
    (filesUnder demoRun.finalState.fs "out").length ≠ 31 :=
  ⟨by decide, rfl, by decide⟩

/-- Claim C1 (amended): the specification table is a static, ordered list
of exactly 30 entries, and a successful run leaves exactly 32 files in
the target directory: the 30 sized PNGs named per the table, plus
mstile-310x150.png, plus favicon.ico (the temporary intermediate
favicon_temp.png is additionally written during the run but removed
before it completes). -/
theorem C1_amended_table_and_files :
    targets.length = 30 ∧
    demoRun = Outcome.ok (successState "logo.png" "out" demoFS) ∧
    filesUnder demoRun.finalState.fs "out" =
      ["out/favicon.ico", "out/mstile-310x150.png", "out/yandex-browser-50x50.png",
       "out/mstile-70x70.png", "out/mstile-310x310.png", "out/mstile-150x150.png",
       "out/mstile-144x144.png", "out/favicon-48x48.png", "out/favicon-32x32.png",
       "out/favicon-16x16.png", "out/apple-touch-icon.png",
       "out/apple-touch-icon-precomposed.png", "out/apple-touch-icon-76x76.png",
       "out/apple-touch-icon-72x72.png", "out/apple-touch-icon-60x60.png",
       "out/apple-touch-icon-57x57.png", "out/apple-touch-icon-180x180.png",
       "out/apple-touch-icon-167x167.png", "out/apple-touch-icon-152x152.png",
       "out/apple-touch-icon-144x144.png", "out/apple-touch-icon-120x120.png",
       "out/apple-touch-icon-114x114.png", "out/apple-touch-icon-1024x1024.png",
       "out/android-chrome-96x96.png", "out/android-chrome-72x72.png",
       "out/android-chrome-512x512.png", "out/android-chrome-48x48.png",
       "out/android-chrome-384x384.png", "out/android-chrome-36x36.png",
       "out/android-chrome-256x256.png", "out/android-chrome-192x192.png",
       "out/android-chrome-144x144.png"] ∧
    (filesUnder demoRun.finalState.fs "out").length = 32 :=
  ⟨rfl, rfl, rfl, rfl⟩

/-- Claim C3: if the source path does not exist, generate_favicons
reports the error on the console and returns early before any side
effect: the filesystem is returned unchanged (so the target directory is
not created and no file is written), and the trace is empty (no external
tool invocation occurs). -/
theorem C3_missing_source_no_side_effects (b : Cmd → Bool) (src dir : String)
    (fs0 : FS) (hsrc : FS.pathExists fs0 src = false) :
    generate_favicons b src dir fs0 =
      Outcome.ok { fs := fs0,
                   console := ["Error: Source file " ++ src ++ " not found."],
                   trace := [] } :=
  run_missing_source b src dir fs0 hsrc

/-- Witness for C3 at a concrete input. -/
theorem C3_witness :
    FS.pathExists emptyFS "missing.png" = false ∧
    generate_favicons allOk "missing.png" "out" emptyFS =
      Outcome.ok { fs := emptyFS,
                   console := ["Error: Source file missing.png not found."],
                   trace := [] } :=
  ⟨rfl, C3_missing_source_no_side_effects allOk "missing.png" "out" emptyFS rfl⟩

/-- Claim C10: when the source path does not exist the function does not
raise: it prints a console message and returns normally (None), exactly
like a successful run such as demoRun, so a caller cannot distinguish the
missing-source abort from a successful run by return value or
exception. -/
theorem C10_missing_source_returns_none (b : Cmd → Bool) (src dir : String)
    (fs0 : FS) (hsrc : FS.pathExists fs0 src = false) :
    (generate_favicons b src dir fs0).isOk = true ∧
    (generate_favicons b src dir fs0).finalState.console =
      ["Error: Source file " ++ src ++ " not found."] ∧
    demoRun.isOk = true := by
  rw [run_missing_source b src dir fs0 hsrc]
  exact ⟨rfl, rfl, rfl⟩

/-- Witness for C10 at a concrete input. -/
theorem C10_witness :
    (generate_favicons allOk "nope.png" "out" demoFS).isOk = true ∧
    (generate_favicons allOk "nope.png" "out" demoFS).finalState.console =
      ["Error: Source file nope.png not found."] ∧
    demoRun.isOk = true :=
  C10_missing_source_returns_none allOk "nope.png" "out" demoFS rfl

/-- Claim C2: for every entry (filename, width, height) of the
specification table, after a successful run the file at
target_dir/filename exists with content a width x height image, and the
trace contains exactly one resize invocation for the entry, whose
destination is target_dir/filename and whose dimension arguments are the
entry's declared height and width, in that order (as the literal argv
shows). -/
theorem C2_per_entry_resize (b : Cmd → Bool) (src dir : String) (fs0 : FS)
    (s : RunState) (hsrc : FS.pathExists fs0 src = true)
    (hrun : generate_favicons b src dir fs0 = Outcome.ok s) :
    ∀ f w h, (f, w, h) ∈ targets →
      FS.getFile s.fs (pathJoin dir f) = some (FileContent.png w h) ∧
      s.trace.count (entryCmd src dir (f, w, h)) = 1 ∧
      (entryCmd src dir (f, w, h)).argv =
        ["sips", "-z", toString h, toString w, src, "--out", pathJoin dir f] := by
  intro f w h hmem
  obtain ⟨hall, hb1, hb2, hcase⟩ := run_ok_cases b src dir fs0 s hsrc hrun
  rcases hcase with ⟨hb3, rfl⟩ | ⟨hb3, hb4, rfl⟩
  · refine ⟨getFile_successState_entry src dir fs0 f w h hmem, ?_, rfl⟩
    rw [successState_trace, List.count_append, List.count_append,
      List.count_append,
      count_map_entryCmd src dir f w h targets hmem targets_names_nodup,
      count_single_ne _ _ (entryCmd_ne_mstileCmd src dir (f, w, h) hmem),
      count_single_ne _ _ (entryCmd_ne_tempCmd src dir (f, w, h) hmem),
      count_single_ne _ _ (entryCmd_ne_convertCmd src dir (f, w, h))]
  · refine ⟨getFile_fallbackState_entry src dir fs0 f w h hmem, ?_, rfl⟩
    rw [fallbackState_trace, List.count_append, List.count_append,
      List.count_append, List.count_append,
      count_map_entryCmd src dir f w h targets hmem targets_names_nodup,
      count_single_ne _ _ (entryCmd_ne_mstileCmd src dir (f, w, h) hmem),
      count_single_ne _ _ (entryCmd_ne_tempCmd src dir (f, w, h) hmem),
      count_single_ne _ _ (entryCmd_ne_convertCmd src dir (f, w, h)),
      count_single_ne _ _ (entryCmd_ne_cpCmd src dir (f, w, h))]

/-- Witness for C2 at a concrete input and entry. -/
theorem C2_witness :
    FS.getFile (successState "logo.png" "out" demoFS).fs
        (pathJoin "out" "favicon-16x16.png") = some (FileContent.png 16 16) ∧
    (successState "logo.png" "out" demoFS).trace.count
        (entryCmd "logo.png" "out" ("favicon-16x16.png", 16, 16)) = 1 ∧
    (entryCmd "logo.png" "out" ("favicon-16x16.png", 16, 16)).argv =
      ["sips", "-z", toString 16, toString 16, "logo.png", "--out",
       pathJoin "out" "favicon-16x16.png"] :=
  C2_per_entry_resize allOk "logo.png" "out" demoFS
    (successState "logo.png" "out" demoFS) rfl
    (run_allOk "logo.png" "out" demoFS rfl)
    "favicon-16x16.png" 16 16 (by decide)

/-- Claim C4: if the resize invocation of a table entry fails, the
CalledProcessError propagates uncaught out of generate_favicons, and the
trace of the aborted run is exactly the resizes of the earlier entries
followed by the failing one: no later entry is processed, nothing is
retried, and neither the special tile nor any ICO step runs. -/
theorem C4_resize_failure_propagates (b : Cmd → Bool) (src dir : String)
    (fs0 : FS) (pre post : List (String × Nat × Nat)) (x : String × Nat × Nat)
    (hsrc : FS.pathExists fs0 src = true)
    (hsplit : targets = pre ++ x :: post)
    (hpre : ∀ e ∈ pre, b (entryCmd src dir e) = true)
    (hx : b (entryCmd src dir x) = false) :
    generate_favicons b src dir fs0 =
      Outcome.raised (PyErr.calledProcessError (entryCmd src dir x))
        (failState src dir pre x fs0) ∧
    (failState src dir pre x fs0).trace =
      pre.map (entryCmd src dir) ++ [entryCmd src dir x] := by
  refine ⟨run_raised_at_entry b src dir fs0 pre post x hsrc hsplit hpre hx, ?_⟩
  simp [failState, loopFold_trace, initState]

/-- Witness for C4: the third table entry's resize fails. -/
theorem C4_witness :
    generate_favicons bThirdFail "logo.png" "out" demoFS =
      Outcome.raised
        (PyErr.calledProcessError
          (entryCmd "logo.png" "out" ("android-chrome-256x256.png", 256, 256)))
        (failState "logo.png" "out" (targets.take 2)
          ("android-chrome-256x256.png", 256, 256) demoFS) ∧
    (failState "logo.png" "out" (targets.take 2)
        ("android-chrome-256x256.png", 256, 256) demoFS).trace =
      (targets.take 2).map (entryCmd "logo.png" "out") ++
        [entryCmd "logo.png" "out" ("android-chrome-256x256.png", 256, 256)] :=
  C4_resize_failure_propagates bThirdFail "logo.png" "out" demoFS
    (targets.take 2) (targets.drop 3) ("android-chrome-256x256.png", 256, 256)
    rfl rfl (by decide) (by decide)

/-- Claim C5: if the ICO conversion invocation fails, generate_favicons
handles the error locally rather than propagating it: it prints the
fallback notice and copies the intermediate's bytes verbatim to
target_dir/favicon.ico, so favicon.ico ends with PNG content identical to
the intermediate (both are the 32x32 PNG) and the run returns normally;
by contrast a failure of the fallback copy itself is not handled and
propagates (the conversion is the only invocation whose failure is
caught). -/
theorem C5_convert_failure_handled (b : Cmd → Bool) (src dir : String)
    (fs0 : FS) (hsrc : FS.pathExists fs0 src = true)
    (hall : ∀ e ∈ targets, b (entryCmd src dir e) = true)
    (hb1 : b (mstileCmd src dir) = true) (hb2 : b (tempCmd src dir) = true)
    (hconv : b (convertCmd dir) = false) :
    (b (cpCmd dir) = true →
      generate_favicons b src dir fs0 = Outcome.ok (fallbackState src dir fs0) ∧
      ((preIcoState src dir fs0).fs).getFile (tempPath dir) =
        some (FileContent.png 32 32) ∧
      ((fallbackState src dir fs0).fs).getFile (icoPath dir) =
        some (FileContent.png 32 32) ∧
      "sips ico export failed, falling back to PNG-as-ICO..." ∈
        (fallbackState src dir fs0).console) ∧
    (b (cpCmd dir) = false →
      generate_favicons b src dir fs0 =
        Outcome.raised (PyErr.calledProcessError (cpCmd dir))
          (cpFailState src dir fs0)) := by
  constructor
  · intro hcp
    refine ⟨run_eval_fallback b src dir fs0 hsrc hall hb1 hb2 hconv hcp, ?_,
      getFile_fallbackState_ico src dir fs0, ?_⟩
    · simp only [preIcoState, applyOk, addLine, applyCmd, tempCmd]
      exact getFile_setFile_same _ _ _
    · simp [fallbackState, applyOk, addLine]
  · intro hcp
    exact run_eval_cpfail b src dir fs0 hsrc hall hb1 hb2 hconv hcp

/-- Witness for C5: conversion fails with the copy succeeding, and
conversion and copy both failing. -/
theorem C5_witness :
    (generate_favicons bConvFail "logo.png" "out" demoFS =
        Outcome.ok (fallbackState "logo.png" "out" demoFS) ∧
      ((preIcoState "logo.png" "out" demoFS).fs).getFile (tempPath "out") =
        some (FileContent.png 32 32) ∧
      ((fallbackState "logo.png" "out" demoFS).fs).getFile (icoPath "out") =
        some (FileContent.png 32 32) ∧
      "sips ico export failed, falling back to PNG-as-ICO..." ∈
        (fallbackState "logo.png" "out" demoFS).console) ∧
    (generate_favicons bConvCpFail "logo.png" "out" demoFS =
      Outcome.raised (PyErr.calledProcessError (cpCmd "out"))
        (cpFailState "logo.png" "out" demoFS)) :=
  ⟨(C5_convert_failure_handled bConvFail "logo.png" "out" demoFS rfl
      (by decide) rfl rfl rfl).1 rfl,
   (C5_convert_failure_handled bConvCpFail "logo.png" "out" demoFS rfl
      (by decide) rfl rfl rfl).2 rfl⟩

/-- Claim C6 (counterexample): the claim states the temporary
intermediate never survives the run even if the fallback step itself
fails, as with a guaranteed-cleanup block. In the code os.remove sits
after the try/except, not in a finally block: in the concrete run where
the conversion fails and the fallback copy also fails, the exception
propagates, the function does not return normally, and the temporary
intermediate is still present in the final filesystem. -/
theorem C6_counterexample :
    (generate_favicons bConvCpFail "logo.png" "out" demoFS).isOk = false ∧
    FS.getFile ((generate_favicons bConvCpFail "logo.png" "out" demoFS).finalState.fs)
        (tempPath "out") = some (FileContent.png 32 32) :=
  ⟨rfl, rfl⟩

/-- Claim C6 (amended): the temporary intermediate file is removed on
both the conversion-success path and the fallback-copy-success path, so
after every run of generate_favicons that returns normally the temporary
intermediate does not exist; but if the fallback copy itself fails the
error propagates before os.remove runs and the intermediate remains (the
cleanup is not equivalent to a guaranteed-cleanup block). -/
theorem C6_amended_cleanup (b : Cmd → Bool) (src dir : String) (fs0 : FS)
    (s : RunState) (hsrc : FS.pathExists fs0 src = true)
    (hrun : generate_favicons b src dir fs0 = Outcome.ok s) :
    FS.getFile s.fs (tempPath dir) = none := by
  obtain ⟨_, _, _, hcase⟩ := run_ok_cases b src dir fs0 s hsrc hrun
  rcases hcase with ⟨_, rfl⟩ | ⟨_, _, rfl⟩
  · exact getFile_successState_temp src dir fs0
  · exact getFile_fallbackState_temp src dir fs0

/-- Witness for C6 (amended) at a concrete input. -/
theorem C6_witness :
    FS.getFile (successState "logo.png" "out" demoFS).fs (tempPath "out") = none :=
  C6_amended_cleanup allOk "logo.png" "out" demoFS
    (successState "logo.png" "out" demoFS) rfl
    (run_allOk "logo.png" "out" demoFS rfl)

/-- Claim C7 (counterexample): the claim states the mstile-310x150.png
resize passes its width/height arguments in an order swapped relative to
the per-entry resizes. The per-entry resizes pass (height, width) after
-z, so for a 310-wide, 150-high tile the swapped order would be the
reverse, the pair of strings 310 then 150; the code passes 150 then 310,
which is exactly the same (height, width) order a table entry with width
310 and height 150 would get, not the swapped one. -/
theorem C7_counterexample :
    dimArgs (mstileCmd "logo.png" "out") =
      dimArgs (entryCmd "logo.png" "out" ("mstile-310x150.png", 310, 150)) ∧
    dimArgs (mstileCmd "logo.png" "out") ≠
      (dimArgs (entryCmd "logo.png" "out" ("mstile-310x150.png", 310, 150))).reverse :=
  ⟨rfl, by decide⟩

/-- Claim C7 (amended): mstile-310x150.png is produced by a single resize
invocation whose dimension arguments, 150 then 310, are passed in the
same (height, width) order as the per-entry resizes in the loop; under
the external tool's contract the output is therefore the nominal 310-wide,
150-high image. -/
theorem C7_amended_tile (b : Cmd → Bool) (src dir : String) (fs0 : FS)
    (s : RunState) (hsrc : FS.pathExists fs0 src = true)
    (hrun : generate_favicons b src dir fs0 = Outcome.ok s) :
    s.trace.count (mstileCmd src dir) = 1 ∧
    FS.getFile s.fs (mstilePath dir) = some (FileContent.png 310 150) ∧
    dimArgs (mstileCmd src dir) =
      dimArgs (entryCmd src dir ("mstile-310x150.png", 310, 150)) := by
  obtain ⟨hall, _, _, hcase⟩ := run_ok_cases b src dir fs0 s hsrc hrun
  rcases hcase with ⟨_, rfl⟩ | ⟨_, _, rfl⟩
  · refine ⟨?_, getFile_successState_mstile src dir fs0, rfl⟩
    rw [successState_trace, List.count_append, List.count_append,
      List.count_append, count_map_mstileCmd src dir,
      count_single_self (mstileCmd src dir),
      count_single_ne _ _ (mstileCmd_ne_tempCmd src dir),
      count_single_ne _ _ (mstileCmd_ne_convertCmd src dir)]
  · refine ⟨?_, getFile_fallbackState_mstile src dir fs0, rfl⟩
    rw [fallbackState_trace, List.count_append, List.count_append,
      List.count_append, List.count_append, count_map_mstileCmd src dir,
      count_single_self (mstileCmd src dir),
      count_single_ne _ _ (mstileCmd_ne_tempCmd src dir),
      count_single_ne _ _ (mstileCmd_ne_convertCmd src dir),
      count_single_ne _ _ (mstileCmd_ne_cpCmd src dir)]

/-- Witness for C7 (amended) at a concrete input. -/
theorem C7_witness :
    (successState "logo.png" "out" demoFS).trace.count
        (mstileCmd "logo.png" "out") = 1 ∧
    FS.getFile (successState "logo.png" "out" demoFS).fs (mstilePath "out") =
      some (FileContent.png 310 150) ∧
    dimArgs (mstileCmd "logo.png" "out") =
      dimArgs (entryCmd "logo.png" "out" ("mstile-310x150.png", 310, 150)) :=
  C7_amended_tile allOk "logo.png" "out" demoFS
    (successState "logo.png" "out" demoFS) rfl
    (run_allOk "logo.png" "out" demoFS rfl)

/-- Claim C8: after every run of generate_favicons that completes without
propagating an error (given the source exists, so the generation actually
runs), the file target_dir/favicon.ico exists, whether the native ICO
conversion succeeded or the fallback copy was taken. -/
theorem C8_favicon_always_exists (b : Cmd → Bool) (src dir : String)
    (fs0 : FS) (s : RunState) (hsrc : FS.pathExists fs0 src = true)
    (hrun : generate_favicons b src dir fs0 = Outcome.ok s) :
    (FS.getFile s.fs (icoPath dir)).isSome = true := by
  obtain ⟨_, _, _, hcase⟩ := run_ok_cases b src dir fs0 s hsrc hrun
  rcases hcase with ⟨_, rfl⟩ | ⟨_, _, rfl⟩
  · rw [getFile_successState_ico]
    rfl
  · rw [getFile_fallbackState_ico]
    rfl

/-- Witness for C8 on the fallback path. -/
theorem C8_witness :
    (FS.getFile (fallbackState "logo.png" "out" demoFS).fs (icoPath "out")).isSome
      = true :=
  C8_favicon_always_exists bConvFail "logo.png" "out" demoFS
    (fallbackState "logo.png" "out" demoFS) rfl
    (run_eval_fallback bConvFail "logo.png" "out" demoFS rfl (by decide)
      rfl rfl rfl rfl)

/-- Claim C9: running generate_favicons twice in succession with the same
arguments (all tool invocations succeeding) succeeds both times and
overwrites all outputs without error: the target-directory creation does
not fail when the directory already exists (makedirs with exist_ok never
fails in the model, mirroring exist_ok=True), the second run also returns
normally, and afterwards every table entry's file and favicon.ico hold
the freshly written contents. The source must not itself be the temporary
intermediate path, which the first run deletes. -/
theorem C9_idempotent_rerun (src dir : String) (fs0 : FS)
    (hsrc : FS.pathExists fs0 src = true) (hne : src ≠ tempPath dir) :
    generate_favicons allOk src dir fs0 = Outcome.ok (successState src dir fs0) ∧
    generate_favicons allOk src dir (successState src dir fs0).fs =
      Outcome.ok (successState src dir (successState src dir fs0).fs) ∧
    (∀ f w h, (f, w, h) ∈ targets →
      FS.getFile (successState src dir (successState src dir fs0).fs).fs
          (pathJoin dir f) = some (FileContent.png w h)) ∧
    FS.getFile (successState src dir (successState src dir fs0).fs).fs
        (icoPath dir) = some (FileContent.icoEncoded (FileContent.png 32 32)) := by
  have hsrc2 := pathExists_successState src dir fs0 src hne hsrc
  exact ⟨run_allOk src dir fs0 hsrc, run_allOk src dir _ hsrc2,
    fun f w h hm => getFile_successState_entry src dir _ f w h hm,
    getFile_successState_ico src dir _⟩

/-- Witness for C9 at a concrete input. -/
theorem C9_witness :
    generate_favicons allOk "logo.png" "out" demoFS =
      Outcome.ok (successState "logo.png" "out" demoFS) ∧
    generate_favicons allOk "logo.png" "out"
        (successState "logo.png" "out" demoFS).fs =
      Outcome.ok (successState "logo.png" "out"
        (successState "logo.png" "out" demoFS).fs) ∧
    (∀ f w h, (f, w, h) ∈ targets →
      FS.getFile (successState "logo.png" "out"
          (successState "logo.png" "out" demoFS).fs).fs
          (pathJoin "out" f) = some (FileContent.png w h)) ∧
    FS.getFile (successState "logo.png" "out"
        (successState "logo.png" "out" demoFS).fs).fs (icoPath "out") =
      some (FileContent.icoEncoded (FileContent.png 32 32)) :=
  C9_idempotent_rerun "logo.png" "out" demoFS rfl (by decide)

end Favicons

